import Mathlib

/-!
Shallow embedding of the Mendix Platform SDK client
(mendix-platform-sdk.ts): job-status polling, HTTP response
classification, XML result extraction, credential validation, commit
validation and the error translator. External libraries (xml2js,
jsonpath, the JS runtime primitives parseInt and typeof, lodash
isEmpty) are embedded at the granularity the source uses them: the
xml2js parse outcome is passed in as an oracle function, while the
jsonpath descendant query, lodash emptiness test and JS primitives are
modelled directly.
-/

namespace MendixSdk

/-- JS truthiness of an optional string value: null, undefined and the
empty string are falsy; every non-empty string is truthy. -/
def jsTruthy : Option String → Bool
  | none => false
  | some s => !(s == "")

/-- Rendering of an optional string inside a JS template literal:
undefined prints as the text undefined. -/
def jsTemplateShow : Option String → String
  | none => "undefined"
  | some s => s

/-- Lodash isEmpty on an optional string: undefined and the empty
string are empty. -/
def lodashIsEmpty : Option String → Bool
  | none => true
  | some s => s == ""

/-- Model of the tree the external xml2js parser produces for a
well-formed document: each element carries its tag, the string value
xml2js yields for its text content, and its child elements. -/
inductive XmlTree where
  | elem (tag : String) (value : String) (children : List XmlTree)

mutual

/-- Model of the jsonpath recursive-descent query used by the source
(pattern `$..Tag[0]` followed by taking query hit 0): the first
element with the given tag in document order, returning its text
value; none when no element matches. -/
def queryFirst (tag : String) : XmlTree → Option String
  | .elem t v cs => if t = tag then some v else queryFirstList tag cs

/-- Document-order search over a list of sibling subtrees. -/
def queryFirstList (tag : String) : List XmlTree → Option String
  | [] => none
  | c :: cs =>
    match queryFirst tag c with
    | some v => some v
    | none => queryFirstList tag cs

end

/-- The state of the background job (enum JobState in the source). -/
inductive JobState where
  | Running
  | Completed
  | Failed
deriving DecidableEq, Repr

/-- Model of the TS enum forward lookup `JobState[state]` applied to
the string read from the status response: only the exact enum member
names map to a member; any other string, and an absent value, yield
undefined (none). -/
def jobStateLookup : Option String → Option JobState
  | some "Running" => some JobState.Running
  | some "Completed" => some JobState.Completed
  | some "Failed" => some JobState.Failed
  | _ => none

/-- The record `_parseJobResult` builds from a parsed status response
(interface JobResult in the source); every field is read
independently and may be absent. -/
structure JobResultModel where
  jobId : Option String
  startTime : Option String
  endTime : Option String
  state : Option String
  result : Option String
  errorMessage : Option String
deriving DecidableEq, Repr

/-- Translation of `_parseJobResult`: each field is the first match of
the corresponding descendant query over the parsed tree. -/
def parseJobResult (parsed : XmlTree) : JobResultModel :=
  { jobId := queryFirst "JobId" parsed
    startTime := queryFirst "StartTime" parsed
    endTime := queryFirst "EndTime" parsed
    state := queryFirst "State" parsed
    result := queryFirst "Result" parsed
    errorMessage := queryFirst "ErrorMessage" parsed }

/-- Outcome of one `_awaitJobResult` polling loop run against a finite
sequence of status responses: the caller's promise is resolved with
the final JobResult, rejected with the errorMessage field, or the
loop has consumed the whole sequence without reaching a terminal
state and has scheduled a further status request. -/
inductive PollOutcome where
  | resolved (jobResult : JobResultModel)
  | rejected (errorMessage : Option String)
  | stillPolling
deriving DecidableEq, Repr

/-- Whether the outcome rejected the caller's pending operation. -/
def PollOutcome.isFailure : PollOutcome → Bool
  | .rejected _ => true
  | _ => false

/-- Translation of the `_awaitJobResult` loop, driven by the sequence
of successfully parsed status responses it receives: each call issues
one status request and consumes one response; a Completed state
resolves with the response, a Failed state rejects with its
errorMessage, and any other state (including an absent or
unrecognised one, for which the enum lookup yields undefined) falls
into the else branch and recurses. The first component counts the
status requests issued on the given sequence. -/
def awaitJobResult : List JobResultModel → Nat × PollOutcome
  | [] => (0, PollOutcome.stillPolling)
  | r :: rest =>
    if jobStateLookup r.state = some JobState.Completed then
      (1, PollOutcome.resolved r)
    else if jobStateLookup r.state = some JobState.Failed then
      (1, PollOutcome.rejected r.errorMessage)
    else
      let next := awaitJobResult rest
      (next.1 + 1, next.2)

/-- A status response is non-terminal when its state maps neither to
Completed nor to Failed, so the loop keeps polling on it. -/
def nonTerminal (r : JobResultModel) : Prop :=
  jobStateLookup r.state ≠ some JobState.Completed ∧
    jobStateLookup r.state ≠ some JobState.Failed

instance (r : JobResultModel) : Decidable (nonTerminal r) := by
  unfold nonTerminal
  infer_instance

/-- A status response whose State field is the given string and whose
other fields are fixed sample values, as used in concrete runs. -/
def sampleResponse (state : Option String) (result : Option String)
    (errorMessage : Option String) : JobResultModel :=
  { jobId := some "J1"
    startTime := some "t0"
    endTime := some "t1"
    state := state
    result := result
    errorMessage := errorMessage }

/-- A rejection value produced inside the client: either a plain
string message (the source rejects with template-literal strings), or
one of the two error objects built in `_parseAndQuery`, a ParseError
wrapping the xml2js error or an EmptyError wrapping the
no-result message. -/
inductive SdkError where
  | message (text : String)
  | parseError (err : String)
  | emptyError (text : String)
deriving DecidableEq, Repr

/-- The slice of a rest.js response the source inspects:
response.error (the transport error), response.status.code (absent
when `_.isEmpty(response.status)`), response.entity (the body, empty
string when missing) and response.raw.response.statusMessage. -/
structure RestResponse where
  transportError : Option String
  status : Option Nat
  entity : String
  statusMessage : String
deriving DecidableEq, Repr

/-- The element tag selected by the jsonpath query strings the source
uses, all of the shape dollar-dot-dot Tag bracket-zero: drops the
three leading and three trailing characters. -/
def queryTag (query : String) : String :=
  (query.drop 3).dropRight 3

/-- The message of the EmptyError built in `_parseAndQuery`, which
interpolates the query text and the (empty) query result. -/
def emptyResultMessage (query : String) (parseResult : Option String) : String :=
  s!"Query {query} on {jsTemplateShow parseResult} does not give any result"

/-- Translation of `_parseAndQuery(xml, query)`: the external xml2js
parse outcome for the body is supplied by the parseXml oracle; a
parse failure rejects with a ParseError carrying the xml2js error, an
empty query result (no match, or a match that lodash isEmpty accepts)
rejects with an EmptyError, and otherwise the first match resolves. -/
def parseAndQuery (parseXml : String → Except String XmlTree)
    (xml : String) (query : String) : Except SdkError String :=
  match parseXml xml with
  | Except.error err => Except.error (SdkError.parseError err)
  | Except.ok result =>
    let parseResult := queryFirst (queryTag query) result
    if lodashIsEmpty parseResult then
      Except.error (SdkError.emptyError (emptyResultMessage query parseResult))
    else
      Except.ok (parseResult.getD "")

/-- Translation of the response handler built by
`_createHttpErrorCodeInterceptor(errorMessage)`: a truthy transport
error rejects as a connection error; an absent status or empty body
rejects as an invalid HTTP response; status 200 resolves the response
untouched; status 500 extracts the fault string from the body via the
faultstring query and rejects with the caller-supplied context, a
colon-space and the fault string, or propagates the extraction error
itself when that query fails; any other status rejects with the
unexpected-code message. -/
def httpErrorCodeInterceptor (parseXml : String → Except String XmlTree)
    (errorMessage : String) (resp : RestResponse) : Except SdkError RestResponse :=
  if jsTruthy resp.transportError then
    Except.error (SdkError.message
      (s!"Connection error: {jsTemplateShow resp.transportError}"))
  else if resp.status.isNone || (resp.entity == "") then
    Except.error (SdkError.message "Error: invalid HTTP response")
  else if resp.status = some 200 then
    Except.ok resp
  else if resp.status = some 500 then
    match parseAndQuery parseXml resp.entity "$..faultstring[0]" with
    | Except.ok cause => Except.error (SdkError.message (errorMessage ++ ": " ++ cause))
    | Except.error e => Except.error e
  else
    let code := resp.status.getD 0
    let raw := resp.statusMessage
    Except.error (SdkError.message
      (s!"Unexpected HTTP response code: {code} {raw}. Please retry after a few minutes. If the problem persists, please consult https://mxforum.mendix.com"))

/-- Translation of the success handler built by `_parseResult()`: an
empty body rejects; otherwise the body is parsed and queried for the
first Result match, which replaces the response entity, and any
extraction error propagates. -/
def parseResultStage (parseXml : String → Except String XmlTree)
    (resp : RestResponse) : Except SdkError RestResponse :=
  if resp.entity == "" then
    Except.error (SdkError.message "Error: HTTP response entity missing")
  else
    match parseAndQuery parseXml resp.entity "$..Result[0]" with
    | Except.ok result => Except.ok { resp with entity := result }
    | Except.error e => Except.error e

/-- The interceptor chain every non-polling call wraps around the
transport: the response passes the error-code interceptor first and,
when that resolves, the result-extraction stage. -/
def nonPollingPipeline (parseXml : String → Except String XmlTree)
    (errorMessage : String) (resp : RestResponse) : Except SdkError RestResponse :=
  match httpErrorCodeInterceptor parseXml errorMessage resp with
  | Except.ok r => parseResultStage parseXml r
  | Except.error e => Except.error e

deriving instance DecidableEq for Except

/-- A status response document with JobId and Result elements but no
State element. -/
def noStateStatusDoc : XmlTree :=
  XmlTree.elem "RetrieveJobStatusResponse" ""
    [XmlTree.elem "JobId" "J1" [], XmlTree.elem "Result" "wc-7" []]

/-- A SOAP fault document whose faultstring is Project does not
exist. -/
def faultDoc : XmlTree :=
  XmlTree.elem "Envelope" ""
    [XmlTree.elem "Body" ""
      [XmlTree.elem "Fault" ""
        [XmlTree.elem "faultstring" "Project does not exist" []]]]

/-- A well-formed response document whose Result element holds the
value 43. -/
def resultDoc : XmlTree :=
  XmlTree.elem "CommitWorkingCopyChangesResponse" ""
    [XmlTree.elem "Result" "43" []]

/-- A well-formed response document whose Result element is empty. -/
def emptyResultDoc : XmlTree :=
  XmlTree.elem "CommitWorkingCopyChangesResponse" ""
    [XmlTree.elem "Result" "" []]

/-- A well-formed response document with no Result element at all. -/
def noResultDoc : XmlTree :=
  XmlTree.elem "CommitWorkingCopyChangesResponse" ""
    [XmlTree.elem "Other" "x" []]

/-- Parse oracle: xml2js parses every body to the fault document. -/
def parseOracleFault : String → Except String XmlTree :=
  fun _ => Except.ok faultDoc

/-- Parse oracle: xml2js parses every body to the Result 43
document. -/
def parseOracleResult : String → Except String XmlTree :=
  fun _ => Except.ok resultDoc

/-- Parse oracle: xml2js parses every body to the empty-Result
document. -/
def parseOracleEmptyResult : String → Except String XmlTree :=
  fun _ => Except.ok emptyResultDoc

/-- Parse oracle: xml2js parses every body to the document without a
Result element. -/
def parseOracleNoResult : String → Except String XmlTree :=
  fun _ => Except.ok noResultDoc

/-- Parse oracle: xml2js fails on every body with a fixed parse
error. -/
def parseOracleMalformed : String → Except String XmlTree :=
  fun _ => Except.error "Non-whitespace before first tag."

/-- A 500 response carrying a SOAP fault body. -/
def faultResponse : RestResponse :=
  { transportError := none, status := some 500,
    entity := "<soap fault body>", statusMessage := "Internal Server Error" }

/-- A 200 response with a non-empty body. -/
def okResponse : RestResponse :=
  { transportError := none, status := some 200,
    entity := "<soap response body>", statusMessage := "OK" }

/-- The credentials object the MendixSdkClient constructor builds:
either the backend shape holding an apikey or the sdk shape holding a
password and an openid; the username argument is stored in the chosen
shape but never itself checked. -/
inductive Credentials where
  | backend (username : Option String) (apikey : Option String)
  | sdk (username : Option String) (password : Option String) (openid : Option String)
deriving DecidableEq, Repr

/-- Translation of the MendixSdkClient constructor credential check:
a truthy apikey selects the backend shape; otherwise truthy password
and openid select the sdk shape; otherwise the constructor throws
Incomplete credentials, before either API client is constructed and
hence before any network I/O. -/
def mendixSdkClientCredentials (username apikey password openid : Option String) :
    Except String Credentials :=
  if jsTruthy apikey then
    Except.ok (Credentials.backend username apikey)
  else if jsTruthy password && jsTruthy openid then
    Except.ok (Credentials.sdk username password openid)
  else
    Except.error "Incomplete credentials"

/-- The runtime shape of the error objects reaching rejectWithError: a
name and a message. The TS subclasses ParseError and EmptyError never
assign the name field, so instances inherit the prototype name
Error. -/
structure JsErrorObject where
  name : String
  message : String
deriving DecidableEq, Repr

/-- The JS typeof operator applied to an object value such as an Error
instance: it returns the string object, never the name of a class. -/
def jsTypeofObject (_ : JsErrorObject) : String := "object"

/-- The object `new ParseError(message)` constructs at runtime. -/
def mkParseErrorObject (message : String) : JsErrorObject :=
  { name := "Error", message := message }

/-- The object `new EmptyError(message)` constructs at runtime. -/
def mkEmptyErrorObject (message : String) : JsErrorObject :=
  { name := "Error", message := message }

/-- Translation of rejectWithError: switch on `typeof (error)` with
cases for the strings ParseError and EmptyError and a default that
interpolates the error name and message. -/
def rejectWithError (error : JsErrorObject) : String :=
  let errorType := jsTypeofObject error
  if errorType = "ParseError" then
    "Response parsing error: " ++ error.message ++ ". Please consult https://mxforum.mendix.com/"
  else if errorType = "EmptyError" then
    "Empty response error: " ++ error.message ++ ". Please consult https://mxforum.mendix.com/"
  else
    error.name ++ ": " ++ error.message ++ ". Please consult https://mxforum.mendix.com/"

/-- Outcome of a commitToTeamServer invocation at the granularity the
validation claims observe: an early rejection issued before any
request is built or dispatched, or a dispatched network request
carrying the templated branch and base revision. -/
inductive CommitOutcome where
  | earlyReject (msg : String)
  | requestIssued (branchName : Option String) (baseRevision : Int)
deriving DecidableEq, Repr

/-- Number of network requests a commit outcome has issued. -/
def CommitOutcome.networkRequests : CommitOutcome → Nat
  | CommitOutcome.earlyReject _ => 0
  | CommitOutcome.requestIssued _ _ => 1

/-- Translation of the commitToTeamServer entry checks: a missing
working copy or missing project rejects; a base revision strictly
below -1 rejects with the interpolated message; otherwise the commit
request is templated and dispatched. -/
def commitToTeamServer (workingCopyPresent : Bool) (projectPresent : Bool)
    (branchName : Option String) (baseRevision : Int) : CommitOutcome :=
  if !workingCopyPresent || !projectPresent then
    CommitOutcome.earlyReject "Working copy is empty or does not contain referral to project"
  else if baseRevision < -1 then
    CommitOutcome.earlyReject (s!"Invalid base revision {baseRevision}")
  else
    CommitOutcome.requestIssued branchName baseRevision

/-- A JS number as the parseInt builtin can produce it: NaN or an
integer. -/
inductive JsNumber where
  | nan
  | int (n : Int)
deriving DecidableEq, Repr

/-- Digits accepted in the given radix (10 or 16). -/
def isRadixDigit (radix : Nat) (c : Char) : Bool :=
  if radix = 16 then
    c.isDigit || ('a' ≤ c && c ≤ 'f') || ('A' ≤ c && c ≤ 'F')
  else
    c.isDigit

/-- Numeric value of an accepted digit character. -/
def radixDigitVal (c : Char) : Nat :=
  if c.isDigit then c.toNat - 48
  else if c.isLower then c.toNat - 87
  else c.toNat - 55

/-- Accumulating conversion of a digit list in the given radix. -/
def digitsToNat (radix : Nat) : List Char → Nat → Nat
  | [], acc => acc
  | c :: cs, acc => digitsToNat radix cs (acc * radix + radixDigitVal c)

/-- Model of the JS parseInt builtin called with no radix argument:
leading whitespace is skipped, an optional sign is read, a 0x or 0X
prefix selects hexadecimal, and the longest prefix of radix digits is
converted; when that prefix is empty the result is NaN. -/
def jsParseInt (s : String) : JsNumber :=
  let trimmed := s.toList.dropWhile fun c => c.isWhitespace
  let signAndRest : Int × List Char :=
    match trimmed with
    | '-' :: rest => (-1, rest)
    | '+' :: rest => (1, rest)
    | _ => (1, trimmed)
  let radixAndRest : Nat × List Char :=
    match signAndRest.2 with
    | '0' :: 'x' :: rest => (16, rest)
    | '0' :: 'X' :: rest => (16, rest)
    | _ => (10, signAndRest.2)
  let digits := radixAndRest.2.takeWhile (isRadixDigit radixAndRest.1)
  if digits.isEmpty then JsNumber.nan
  else JsNumber.int (signAndRest.1 * Int.ofNat (digitsToNat radixAndRest.1 digits 0))

/-- The parseInt coercion of a possibly absent job result field: JS
parseInt stringifies its argument first, so an undefined result is
parsed as the text undefined. -/
def jsParseIntOpt : Option String → JsNumber
  | none => jsParseInt "undefined"
  | some s => jsParseInt s

/-- JS loose equality with null applied to a number value: a number,
NaN included, is never loosely equal to null; only null and undefined
are. -/
def jsNumberLooseEqNull (_ : JsNumber) : Bool := false

/-- Rendering of a JS number in a template literal. -/
def jsNumberShow : JsNumber → String
  | JsNumber.nan => "NaN"
  | JsNumber.int n => toString n

/-- Rendering of a nullable string in a template literal. -/
def jsNullShow : Option String → String
  | none => "null"
  | some s => s

/-- A Team Server revision as commitToTeamServer resolves it: the
parsed revision number (possibly NaN) and the branch name. -/
structure RevisionModel where
  num : JsNumber
  branchName : Option String
deriving DecidableEq, Repr

/-- Translation of the continuation commitToTeamServer applies to the
final job result: parse the result with parseInt, reject when the
parsed number is loosely equal to null, and otherwise resolve a
Revision carrying that number on the requested branch. -/
def commitJobContinuation (branchName : Option String) (result : Option String) :
    Except String RevisionModel :=
  let num := jsParseIntOpt result
  if jsNumberLooseEqNull num then
    Except.error ("Failed to commit changes to team server: revision " ++ jsNumberShow num
      ++ " on branch " ++ jsNullShow branchName ++ ". Reason: returned job id is not a number.")
  else
    Except.ok { num := num, branchName := branchName }

/-- Observable calls made during OnlineWorkingCopy.commit, in
order. -/
inductive CommitEvent where
  | closeConnectionCall
  | commitToTeamServerCall
deriving DecidableEq, Repr

/-- Translation of OnlineWorkingCopy.commit: the model connection
close is triggered first and its failure rejects the whole operation;
only after close succeeds is commitToTeamServer invoked, and the
operation takes its result. The close and commit outcomes are
supplied as oracles; the first component lists the calls actually
made, in order. -/
def workingCopyCommit (closeResult : Except String Unit)
    (commitResult : Except String RevisionModel) :
    List CommitEvent × Except String RevisionModel :=
  match closeResult with
  | Except.error e => ([CommitEvent.closeConnectionCall], Except.error e)
  | Except.ok _ =>
    ([CommitEvent.closeConnectionCall, CommitEvent.commitToTeamServerCall], commitResult)

/-- Helper: the tag selected by the faultstring query text. -/
theorem queryTag_faultstring : queryTag "$..faultstring[0]" = "faultstring" := by
  decide

/-- Helper: the tag selected by the Result query text. -/
theorem queryTag_result : queryTag "$..Result[0]" = "Result" := by
  decide

/-- C1: in every polling loop, each status response whose state maps
neither to Completed nor to Failed causes exactly one further status
request, and a Completed response resolves the pending operation with
the final JobResult (whose result field the caller consumes); over a
prefix of non-terminal responses followed by a Completed one, the
number of status requests issued is the prefix length plus one. -/
theorem awaitJobResult_completed_resolves
    (pre : List JobResultModel) (r : JobResultModel) (rest : List JobResultModel)
    (hpre : ∀ x ∈ pre, nonTerminal x)
    (hr : jobStateLookup r.state = some JobState.Completed) :
    awaitJobResult (pre ++ r :: rest) = (pre.length + 1, PollOutcome.resolved r) := by
  induction pre with
  | nil => simp [awaitJobResult, hr]
  | cons a as ih =>
    have ha := hpre a (List.mem_cons_self a as)
    have ih2 := ih (fun x hx => hpre x (List.mem_cons_of_mem a hx))
    simp [awaitJobResult, ha.1, ha.2, ih2]

/-- C1 witness: on the status sequence Running, Running,
Completed with result app-42, exactly 3 status requests are issued
and the operation resolves with a JobResult whose result is app-42. -/
theorem awaitJobResult_completed_resolves_witness :
    awaitJobResult
        [sampleResponse (some "Running") none none,
          sampleResponse (some "Running") none none,
          sampleResponse (some "Completed") (some "app-42") none] =
      (3, PollOutcome.resolved (sampleResponse (some "Completed") (some "app-42") none)) ∧
    (sampleResponse (some "Completed") (some "app-42") none).result = some "app-42" :=
  ⟨awaitJobResult_completed_resolves
      [sampleResponse (some "Running") none none,
        sampleResponse (some "Running") none none]
      (sampleResponse (some "Completed") (some "app-42") none) []
      (by decide) (by decide),
    rfl⟩

/-- C2: in every polling loop, a status response with state Failed
rejects the pending operation with exactly the errorMessage field of
that response, with no wrapping. -/
theorem awaitJobResult_failed_rejects_verbatim
    (pre : List JobResultModel) (r : JobResultModel) (rest : List JobResultModel)
    (hpre : ∀ x ∈ pre, nonTerminal x)
    (hr : jobStateLookup r.state = some JobState.Failed) :
    awaitJobResult (pre ++ r :: rest) =
      (pre.length + 1, PollOutcome.rejected r.errorMessage) := by
  induction pre with
  | nil => simp [awaitJobResult, hr]
  | cons a as ih =>
    have ha := hpre a (List.mem_cons_self a as)
    have ih2 := ih (fun x hx => hpre x (List.mem_cons_of_mem a hx))
    simp [awaitJobResult, ha.1, ha.2, ih2]

/-- C2 witness: on the status sequence Running, Failed with error
message No such revision, the operation fails with exactly that
message. -/
theorem awaitJobResult_failed_rejects_verbatim_witness :
    awaitJobResult
        [sampleResponse (some "Running") none none,
          sampleResponse (some "Failed") none (some "No such revision")] =
      (2, PollOutcome.rejected (some "No such revision")) :=
  awaitJobResult_failed_rejects_verbatim
    [sampleResponse (some "Running") none none]
    (sampleResponse (some "Failed") none (some "No such revision")) []
    (by decide) (by decide)

/-- C4 counterexample: for a status response body whose State element
is absent, the operation does not fail; the response parses with
state undefined, the loop consumes it as non-terminal and keeps
polling. -/
theorem parseJobResult_absent_state_cex :
    (parseJobResult noStateStatusDoc).state = none ∧
    awaitJobResult [parseJobResult noStateStatusDoc] = (1, PollOutcome.stillPolling) ∧
    (awaitJobResult [parseJobResult noStateStatusDoc]).2.isFailure = false := by
  decide

/-- C4 amended: parsing a job-status response reads JobId, StartTime,
EndTime, State, Result and ErrorMessage independently and tolerates
the absence of every field, State included; a response whose State
element is absent parses with state undefined and the polling loop
treats it as non-terminal, issuing one further status request instead
of failing. -/
theorem awaitJobResult_absent_state_continues
    (parsed : XmlTree) (rest : List JobResultModel)
    (h : queryFirst "State" parsed = none) :
    (parseJobResult parsed).state = none ∧
    awaitJobResult (parseJobResult parsed :: rest) =
      ((awaitJobResult rest).1 + 1, (awaitJobResult rest).2) := by
  have hs : (parseJobResult parsed).state = none := h
  refine ⟨hs, ?_⟩
  simp [awaitJobResult, hs, jobStateLookup]

/-- C4 amended witness: at the concrete State-less status document and
the empty remaining sequence, the response is consumed and one further
request is counted. -/
theorem awaitJobResult_absent_state_continues_witness :
    (parseJobResult noStateStatusDoc).state = none ∧
    awaitJobResult [parseJobResult noStateStatusDoc] =
      ((awaitJobResult []).1 + 1, (awaitJobResult []).2) :=
  awaitJobResult_absent_state_continues noStateStatusDoc [] (by decide)

/-- C3: for every response with HTTP status 500 (no transport error,
non-empty body), the classification stage extracts the fault string
from the body via the faultstring path and rejects with the
caller-supplied context, a colon-space and the fault string; when the
body parse fails, the underlying ParseError is propagated unchanged;
more generally any failure of the extraction is propagated as-is
rather than wrapped as a service fault. -/
theorem httpErrorCode_500_faultstring
    (parseXml : String → Except String XmlTree) (ctx : String) (resp : RestResponse)
    (hte : resp.transportError = none) (hst : resp.status = some 500)
    (hent : resp.entity ≠ "") :
    (∀ tree fs, parseXml resp.entity = Except.ok tree →
      queryFirst "faultstring" tree = some fs → fs ≠ "" →
      httpErrorCodeInterceptor parseXml ctx resp =
        Except.error (SdkError.message (ctx ++ ": " ++ fs))) ∧
    (∀ err, parseXml resp.entity = Except.error err →
      httpErrorCodeInterceptor parseXml ctx resp =
        Except.error (SdkError.parseError err)) ∧
    (∀ e, parseAndQuery parseXml resp.entity "$..faultstring[0]" = Except.error e →
      httpErrorCodeInterceptor parseXml ctx resp = Except.error e) := by
  refine ⟨?_, ?_, ?_⟩
  · intro tree fs h1 h2 h3
    have hpq : parseAndQuery parseXml resp.entity "$..faultstring[0]" = Except.ok fs := by
      simp [parseAndQuery, h1, queryTag_faultstring, h2, lodashIsEmpty, h3]
    simp [httpErrorCodeInterceptor, hte, hst, jsTruthy, hent, hpq]
  · intro err h1
    have hpq : parseAndQuery parseXml resp.entity "$..faultstring[0]" =
        Except.error (SdkError.parseError err) := by
      simp [parseAndQuery, h1]
    simp [httpErrorCodeInterceptor, hte, hst, jsTruthy, hent, hpq]
  · intro e h1
    simp [httpErrorCodeInterceptor, hte, hst, jsTruthy, hent, h1]

/-- C3 witness: a 500 response whose body parses to a fault document
with faultstring Project does not exist fails the create-working-copy
context with the expected message, and a 500 response whose body does
not parse propagates the xml2js error as a ParseError. -/
theorem httpErrorCode_500_faultstring_witness :
    httpErrorCodeInterceptor parseOracleFault
        "Failed to create online working copy" faultResponse =
      Except.error (SdkError.message
        "Failed to create online working copy: Project does not exist") ∧
    httpErrorCodeInterceptor parseOracleMalformed
        "Failed to create online working copy" faultResponse =
      Except.error (SdkError.parseError "Non-whitespace before first tag.") := by
  constructor
  · exact (httpErrorCode_500_faultstring parseOracleFault
      "Failed to create online working copy" faultResponse rfl rfl (by decide)).1
      faultDoc "Project does not exist" rfl (by decide) (by decide)
  · exact (httpErrorCode_500_faultstring parseOracleMalformed
      "Failed to create online working copy" faultResponse rfl rfl (by decide)).2.1
      "Non-whitespace before first tag." rfl

/-- C7 counterexample: a 200 response with a non-empty body whose
well-formed document carries an empty Result element: the query does
yield a (first) match, the empty string, but the stage does not
replace the body with it; it fails with an EmptyError instead. -/
theorem parseResultStage_empty_match_cex :
    queryFirst "Result" emptyResultDoc = some "" ∧
    nonPollingPipeline parseOracleEmptyResult "ctx" okResponse =
      Except.error (SdkError.emptyError
        (emptyResultMessage "$..Result[0]" (some ""))) ∧
    nonPollingPipeline parseOracleEmptyResult "ctx" okResponse ≠
      Except.ok { okResponse with entity := "" } := by
  refine ⟨by decide, by decide, by decide⟩

/-- C7 amended: for every non-polling call whose response has status
200, no transport error and a non-empty body, the result-extraction
stage replaces the response body with the first match of the Result
query whenever that match is a non-empty string; when the query
yields no match or a match that is empty, it fails with an
EmptyError; and when the body is not well-formed XML it fails with a
ParseError carrying the parser error. -/
theorem nonPollingPipeline_result_extraction
    (parseXml : String → Except String XmlTree) (ctx : String) (resp : RestResponse)
    (hte : resp.transportError = none) (hst : resp.status = some 200)
    (hent : resp.entity ≠ "") :
    (∀ tree v, parseXml resp.entity = Except.ok tree →
      queryFirst "Result" tree = some v → v ≠ "" →
      nonPollingPipeline parseXml ctx resp = Except.ok { resp with entity := v }) ∧
    (∀ tree, parseXml resp.entity = Except.ok tree →
      lodashIsEmpty (queryFirst "Result" tree) = true →
      nonPollingPipeline parseXml ctx resp =
        Except.error (SdkError.emptyError
          (emptyResultMessage "$..Result[0]" (queryFirst "Result" tree)))) ∧
    (∀ err, parseXml resp.entity = Except.error err →
      nonPollingPipeline parseXml ctx resp =
        Except.error (SdkError.parseError err)) := by
  have hpass : httpErrorCodeInterceptor parseXml ctx resp = Except.ok resp := by
    simp [httpErrorCodeInterceptor, hte, hst, jsTruthy, hent]
  refine ⟨?_, ?_, ?_⟩
  · intro tree v h1 h2 h3
    have hpq : parseAndQuery parseXml resp.entity "$..Result[0]" = Except.ok v := by
      simp [parseAndQuery, h1, queryTag_result, h2, lodashIsEmpty, h3]
    simp [nonPollingPipeline, hpass, parseResultStage, hent, hpq]
  · intro tree h1 h2
    have hpq : parseAndQuery parseXml resp.entity "$..Result[0]" =
        Except.error (SdkError.emptyError
          (emptyResultMessage "$..Result[0]" (queryFirst "Result" tree))) := by
      simp [parseAndQuery, h1, queryTag_result, h2]
    simp [nonPollingPipeline, hpass, parseResultStage, hent, hpq]
  · intro err h1
    have hpq : parseAndQuery parseXml resp.entity "$..Result[0]" =
        Except.error (SdkError.parseError err) := by
      simp [parseAndQuery, h1]
    simp [nonPollingPipeline, hpass, parseResultStage, hent, hpq]

/-- C7 amended witness: at concrete parse oracles, a Result match 43
replaces the body, a missing Result element yields the EmptyError,
and a malformed body yields the ParseError. -/
theorem nonPollingPipeline_result_extraction_witness :
    nonPollingPipeline parseOracleResult "ctx" okResponse =
      Except.ok { okResponse with entity := "43" } ∧
    nonPollingPipeline parseOracleNoResult "ctx" okResponse =
      Except.error (SdkError.emptyError
        (emptyResultMessage "$..Result[0]" (queryFirst "Result" noResultDoc))) ∧
    nonPollingPipeline parseOracleMalformed "ctx" okResponse =
      Except.error (SdkError.parseError "Non-whitespace before first tag.") := by
  refine ⟨?_, ?_, ?_⟩
  · exact (nonPollingPipeline_result_extraction parseOracleResult "ctx" okResponse
      rfl rfl (by decide)).1 resultDoc "43" rfl (by decide) (by decide)
  · exact (nonPollingPipeline_result_extraction parseOracleNoResult "ctx" okResponse
      rfl rfl (by decide)).2.1 noResultDoc rfl (by decide)
  · exact (nonPollingPipeline_result_extraction parseOracleMalformed "ctx" okResponse
      rfl rfl (by decide)).2.2 "Non-whitespace before first tag." rfl

/-- C5 counterexample: the constructor accepts an apikey with no
username at all, a combination of constructor arguments outside the
two credential shapes, instead of raising Incomplete credentials. -/
theorem mendixSdkClientCredentials_no_username_cex :
    mendixSdkClientCredentials none (some "364fbe6d") none none =
      Except.ok (Credentials.backend none (some "364fbe6d")) ∧
    mendixSdkClientCredentials none (some "364fbe6d") none none ≠
      Except.error "Incomplete credentials" := by
  refine ⟨by decide, by decide⟩

/-- C5 amended: construction accepts any argument combination with a
truthy (non-empty) apikey as the backend shape and, when the apikey
is falsy, any combination with truthy password and openid as the sdk
shape, never validating the username; every remaining combination
(for example only a username) raises Incomplete credentials, thrown
before either API client is constructed and hence before any network
I/O. -/
theorem mendixSdkClientCredentials_spec
    (username apikey password openid : Option String) :
    (jsTruthy apikey = true →
      mendixSdkClientCredentials username apikey password openid =
        Except.ok (Credentials.backend username apikey)) ∧
    (jsTruthy apikey = false → jsTruthy password = true → jsTruthy openid = true →
      mendixSdkClientCredentials username apikey password openid =
        Except.ok (Credentials.sdk username password openid)) ∧
    (jsTruthy apikey = false → (jsTruthy password && jsTruthy openid) = false →
      mendixSdkClientCredentials username apikey password openid =
        Except.error "Incomplete credentials") := by
  refine ⟨?_, ?_, ?_⟩
  · intro h1
    simp [mendixSdkClientCredentials, h1]
  · intro h1 h2 h3
    simp [mendixSdkClientCredentials, h1, h2, h3]
  · intro h1 h2
    simp [mendixSdkClientCredentials, h1, h2]

/-- C5 amended witness: a lone username raises Incomplete
credentials, and a full backend pair is accepted. -/
theorem mendixSdkClientCredentials_spec_witness :
    mendixSdkClientCredentials (some "richard.ford51") none none none =
      Except.error "Incomplete credentials" ∧
    mendixSdkClientCredentials (some "richard.ford51") (some "364fbe6d") none none =
      Except.ok (Credentials.backend (some "richard.ford51") (some "364fbe6d")) := by
  constructor
  · exact (mendixSdkClientCredentials_spec
      (some "richard.ford51") none none none).2.2 (by decide) (by decide)
  · exact (mendixSdkClientCredentials_spec
      (some "richard.ford51") (some "364fbe6d") none none).1 (by decide)

/-- C6: evaluation of the error translator at the failing inputs: the
JS typeof of any object is the string object, so the ParseError and
EmptyError switch cases can never match; every error falls into the
default branch interpolating the inherited name Error, and neither
the Response parsing error shape nor the Empty response error shape
is ever produced. -/
theorem rejectWithError_typeof_bug :
    (∀ e : JsErrorObject, rejectWithError e =
      e.name ++ ": " ++ e.message ++ ". Please consult https://mxforum.mendix.com/") ∧
    rejectWithError (mkParseErrorObject "bad xml") =
      "Error: bad xml. Please consult https://mxforum.mendix.com/" ∧
    rejectWithError (mkParseErrorObject "bad xml") ≠
      "Response parsing error: bad xml. Please consult https://mxforum.mendix.com/" ∧
    rejectWithError (mkEmptyErrorObject "no node") ≠
      "Empty response error: no node. Please consult https://mxforum.mendix.com/" := by
  refine ⟨fun e => rfl, by decide, by decide, by decide⟩

/-- C8: in every run of OnlineWorkingCopy.commit, the commit request
is only ever issued after the close call, and only when close
succeeded; when close fails, no commit call is made and the operation
fails with exactly the close error. -/
theorem workingCopyCommit_close_before_commit
    (closeResult : Except String Unit) (commitResult : Except String RevisionModel) :
    ((workingCopyCommit closeResult commitResult).1 = [CommitEvent.closeConnectionCall] ∨
      (workingCopyCommit closeResult commitResult).1 =
        [CommitEvent.closeConnectionCall, CommitEvent.commitToTeamServerCall]) ∧
    (CommitEvent.commitToTeamServerCall ∈ (workingCopyCommit closeResult commitResult).1 →
      closeResult = Except.ok () ∧
      (workingCopyCommit closeResult commitResult).2 = commitResult) ∧
    (∀ e, closeResult = Except.error e →
      workingCopyCommit closeResult commitResult =
        ([CommitEvent.closeConnectionCall], Except.error e)) := by
  cases closeResult with
  | error e =>
    refine ⟨Or.inl rfl, ?_, ?_⟩
    · intro hmem
      simp [workingCopyCommit] at hmem
    · intro e2 he
      simp [workingCopyCommit, Except.error.injEq] at he ⊢
      exact he
  | ok u =>
    refine ⟨Or.inr rfl, ?_, ?_⟩
    · intro _
      exact ⟨rfl, rfl⟩
    · intro e2 he
      exact absurd he (by simp)

/-- C8 witness: when closing the connection fails with the message
connection lost, the trace holds only the close call and the
operation fails with exactly that error, even though the commit
oracle would have succeeded. -/
theorem workingCopyCommit_close_before_commit_witness :
    workingCopyCommit (Except.error "connection lost")
        (Except.ok { num := JsNumber.int 43, branchName := none }) =
      ([CommitEvent.closeConnectionCall], Except.error "connection lost") :=
  (workingCopyCommit_close_before_commit (Except.error "connection lost")
    (Except.ok { num := JsNumber.int 43, branchName := none })).2.2
    "connection lost" rfl

/-- C9: with the working copy and project present, every call with a
base revision strictly below -1 is rejected early with the message
interpolating that revision, and no network request is issued. -/
theorem commitToTeamServer_invalid_base_revision
    (branchName : Option String) (baseRevision : Int)
    (h : baseRevision < -1) :
    commitToTeamServer true true branchName baseRevision =
      CommitOutcome.earlyReject (s!"Invalid base revision {baseRevision}") ∧
    (commitToTeamServer true true branchName baseRevision).networkRequests = 0 := by
  have hc : commitToTeamServer true true branchName baseRevision =
      CommitOutcome.earlyReject (s!"Invalid base revision {baseRevision}") := by
    simp [commitToTeamServer, h]
  exact ⟨hc, by simp [hc, CommitOutcome.networkRequests]⟩

/-- C9 witness: at base revision -2 the operation is rejected with
the message Invalid base revision -2 and zero network requests. -/
theorem commitToTeamServer_invalid_base_revision_witness :
    ((-2 : Int) < -1) ∧
    commitToTeamServer true true none (-2) =
      CommitOutcome.earlyReject "Invalid base revision -2" ∧
    (commitToTeamServer true true none (-2)).networkRequests = 0 := by
  have h := commitToTeamServer_invalid_base_revision none (-2) (by decide)
  exact ⟨by decide, h.1, h.2⟩

/-- C10: the rejection branch guarded by comparing the parseInt of
the job result loosely to null is unreachable, since a JS number, NaN
included, is never loosely equal to null: every job result string
resolves to a Revision, and a non-numeric result resolves to a
Revision whose number is NaN rather than failing. -/
theorem commitJobContinuation_reject_unreachable :
    (∀ (branchName : Option String) (result : Option String),
      commitJobContinuation branchName result =
        Except.ok { num := jsParseIntOpt result, branchName := branchName }) ∧
    jsParseIntOpt (some "app-42") = JsNumber.nan ∧
    commitJobContinuation none (some "app-42") =
      Except.ok { num := JsNumber.nan, branchName := none } ∧
    jsParseIntOpt (some "42") = JsNumber.int 42 := by
  refine ⟨fun b r => rfl, by decide, by decide, by decide⟩

end MendixSdk
